import Mathlib

/-!
Verification of the flight-telemetry aggregation and alerting services
(`services/fleet-stats/app.py` and `services/emergency-alert/app.py`)
against their natural-language specification.

Modelling conventions:
* Flight-update payloads are JSON objects.  We model them as a record of the
  eight fields the services read, each field optional (a `none` field stands
  both for an absent key and for a JSON `null`; the two are indistinguishable
  to every `dict.get` call the services make).  The altitude and velocity
  fields may carry a non-numeric JSON value (`JVal.str`), which is what makes
  the services' `total += value` statements able to raise a `TypeError`.
* Python `float` arithmetic is modelled over `ℚ`; no claim under study
  depends on floating-point rounding.
* Python's process-seeded `hash` of a string and the floating-point
  nearest-airport geometry are passed in as parameters (`pyhash`,
  `geo_nearest`); every theorem quantifies over them, since no claim depends
  on their concrete values.
* Exceptions are modelled with `Except String` / explicit error components;
  the services' outer `try/except` blocks become explicit error branches
  that return the `{"status": "error"}` acknowledgment.
* `stats['last_update']` (a wall-clock timestamp written only inside
  `save_stats_to_state`) and the external state-store writes are I/O effects
  with no influence on the in-memory state read by any claim; they are not
  part of the state model.
-/

/-- A JSON scalar as stored in a flight-update metric field: a number or a
string.  (Other JSON shapes never occur in the claims under study.) -/
inductive JVal
  | num (q : ℚ)
  | str (s : String)
deriving DecidableEq

/-- Python truthiness of a JSON scalar: `0` and `""` are falsy. -/
def truthyJ : JVal → Bool
  | .num q => q != 0
  | .str s => s != ""

/-- Python truthiness of an optional field value (`None` is falsy). -/
def truthyO : Option JVal → Bool
  | none => false
  | some v => truthyJ v

/-- Python `x or y` on JSON scalars. -/
def pyOr (x y : JVal) : JVal :=
  if truthyJ x then x else y

/-- Python `x > y` on JSON scalars: numeric comparison, or a `TypeError`
when either side is not a number. -/
def pyGT (x y : JVal) : Except String Bool :=
  match x, y with
  | .num a, .num b => .ok (decide (b < a))
  | _, _ => .error "TypeError"

/-- A flight-update record: the fields of the inbound JSON object that the
services read.  `none` stands for an absent key or a JSON `null`. -/
structure Flight where
  icao24 : Option String := none
  callsign : Option String := none
  squawk : Option String := none
  latitude : Option ℚ := none
  longitude : Option ℚ := none
  baro_altitude : Option JVal := none
  velocity : Option JVal := none
  origin_country : Option String := none
deriving DecidableEq

/-- The empty JSON object `{}` (every recognized field absent): the one
falsy dict payload. -/
def emptyFlight : Flight := {}

/-- Replace the value under a key of an insertion-ordered dict
(association list), appending at the end when the key is absent —
Python `d[k] = v`. -/
def setEntry {α : Type} : List (String × α) → String → α → List (String × α)
  | [], k, v => [(k, v)]
  | (k0, v0) :: t, k, v =>
      if k0 = k then (k0, v) :: t else (k0, v0) :: setEntry t k v

/-- Python `s.strip()`: drop leading and trailing whitespace.  Implemented
by structural recursion over the character list so that concrete witnesses
reduce inside the kernel. -/
def pyStrip (s : String) : String :=
  ⟨((s.data.dropWhile Char.isWhitespace).reverse.dropWhile
      Char.isWhitespace).reverse⟩

/-- Python `s[:n]`: the first `n` characters. -/
def pyTake (s : String) (n : Nat) : String := ⟨s.data.take n⟩

/-- Python `len(s)`: the number of characters. -/
def pyLen (s : String) : Nat := s.data.length

/-- Numeric value of the digit characters of a string, `0` when there are
none — `int(''.join(filter(str.isdigit, callsign)) or '0')`. -/
def digitsVal (s : String) : Nat :=
  (s.toList.filter Char.isDigit).foldl (fun acc c => acc * 10 + (c.toNat - 48)) 0

/-! ### Fleet-stats service: classifiers (`services/fleet-stats/app.py`) -/

/-- The fixed airline code table of `get_airline_from_callsign`. -/
def airline_codes : List (String × String) :=
  [("DL", "Delta"), ("UA", "United"), ("WN", "Southwest"),
   ("QF", "Qantas"), ("EK", "Emirates")]

/-- Embedding of `get_airline_from_callsign` (fleet-stats lines 38-52):
reject empty or too-short callsigns, then look up `callsign[:2].strip()`. -/
def get_airline_from_callsign (callsign : String) : String :=
  if callsign = "" || pyLen callsign < 2 then "Unknown"
  else ((airline_codes.lookup (pyStrip (pyTake callsign 2))).getD "Other")

/-- The airport list of `infer_destination_from_flight`, in insertion
order. -/
def airport_list : List String :=
  ["KJFK", "KLAX", "EGLL", "YSSY", "OMDB", "KORD", "KDFW", "KATL"]

/-- Embedding of `infer_destination_from_flight` (fleet-stats lines 54-105).
The floating-point nearest-airport geometry (closest major airport when
within the distance threshold) is the parameter `geo_nearest`. -/
def infer_destination_from_flight (geo_nearest : ℚ → ℚ → Option String)
    (f : Flight) : String :=
  let viaPos : Option String :=
    match f.latitude, f.longitude with
    | some lat, some lon =>
        if lat != 0 && lon != 0 then geo_nearest lat lon else none
    | _, _ => none
  match viaPos with
  | some a => a
  | none =>
      let callsign := pyStrip (f.callsign.getD "")
      if callsign != "" then
        airport_list.getD (digitsVal callsign % airport_list.length) "Unknown"
      else "Unknown"

/-- The country-to-airports table of `infer_origin_from_flight`. -/
def country_airports : List (String × List String) :=
  [("United States", ["KJFK", "KLAX", "KORD", "KDFW", "KATL"]),
   ("United Kingdom", ["EGLL"]),
   ("Australia", ["YSSY"]),
   ("United Arab Emirates", ["OMDB"])]

/-- The fallback airport list of `infer_origin_from_flight`. -/
def default_airports : List String := ["KJFK", "KLAX", "EGLL", "YSSY", "OMDB"]

/-- Embedding of `infer_origin_from_flight` (fleet-stats lines 107-143).
Python's seeded string `hash` is the parameter `pyhash` (Python's `h % n`
is non-negative, so `String → Nat` loses nothing). -/
def infer_origin_from_flight (pyhash : String → Nat) (f : Flight) : String :=
  let origin_country := f.origin_country.getD ""
  match country_airports.lookup origin_country with
  | some airports =>
      let icao24 := f.icao24.getD ""
      if icao24 != "" then
        airports.getD (pyhash icao24 % airports.length) "Unknown"
      else airports.getD 0 "Unknown"
  | none =>
      let callsign := pyStrip (f.callsign.getD "")
      if callsign != "" then
        default_airports.getD ((digitsVal callsign + 1) % default_airports.length)
          "Unknown"
      else "Unknown"

/-- Embedding of `infer_aircraft_type_from_flight` (fleet-stats lines
145-182): hash-bucket the trimmed callsign when non-empty, else compare
`flight.get('baro_altitude', 0) or 0` (which may be a non-number, making
the comparisons raise) against fixed thresholds, with Python's
short-circuit `and` and the `elif` re-test of `altitude > 5000`. -/
def infer_aircraft_type_from_flight (pyhash : String → Nat) (f : Flight) :
    Except String String :=
  let callsign := pyStrip (f.callsign.getD "")
  if callsign != "" then
    let hash_val := pyhash callsign % 100
    .ok (if hash_val < 50 then "Narrow Body"
         else if hash_val < 80 then "Wide Body"
         else if hash_val < 95 then "Regional"
         else "Cargo")
  else
    let altitude := pyOr ((f.baro_altitude).getD (JVal.num 0)) (JVal.num 0)
    let velocity := pyOr ((f.velocity).getD (JVal.num 0)) (JVal.num 0)
    match pyGT altitude (JVal.num 10000) with
    | .error e => .error e
    | .ok true =>
        match pyGT velocity (JVal.num 200) with
        | .error e => .error e
        | .ok true => .ok "Wide Body"
        | .ok false =>
            match pyGT altitude (JVal.num 5000) with
            | .error e => .error e
            | .ok true => .ok "Narrow Body"
            | .ok false => .ok "Regional"
    | .ok false =>
        match pyGT altitude (JVal.num 5000) with
        | .error e => .error e
        | .ok true => .ok "Narrow Body"
        | .ok false => .ok "Regional"

/-! ### Fleet-stats service: the aggregate store and update handler -/

/-- One per-bucket running-statistics record of the `stats` dicts. -/
structure AggRecord where
  count : Nat
  total_altitude : ℚ
  total_velocity : ℚ
  samples : Nat
deriving DecidableEq

/-- The record a bucket is initialized with on first observation. -/
def AggRecord.init : AggRecord := ⟨0, 0, 0, 0⟩

/-- One dimension of the `stats` table: an insertion-ordered dict from
bucket name to its running record. -/
abbrev DimMap := List (String × AggRecord)

/-- The in-memory `stats` object of the fleet-stats service. -/
structure FSStats where
  by_airline : DimMap
  by_destination : DimMap
  by_origin : DimMap
  by_aircraft_type : DimMap
  total_active : Nat
deriving DecidableEq

/-- The initial (empty) `stats` object. -/
def fsInit : FSStats := ⟨[], [], [], [], 0⟩

/-- Embedding of `total_altitude += flight['baro_altitude']` guarded by
`if flight.get('baro_altitude'):` — skip falsy values, raise a `TypeError`
on a truthy non-number. -/
def addIfTruthy (t : ℚ) (v : Option JVal) : Except String ℚ :=
  match v with
  | none => .ok t
  | some (.num q) => if q = 0 then .ok t else .ok (t + q)
  | some (.str s) => if s = "" then .ok t else .error "TypeError"

/-- One dimension-record update of the fleet-stats handler (the
`count/samples/total_altitude/total_velocity` block repeated at lines
252-266, 268-283, 285-300, 302-317): initialize the bucket if absent,
increment `count` and `samples` unconditionally, then add each truthy
metric to its total.  Returns the mutated record and the pending
exception, if any (mutations made before the exception persist). -/
def updateAggRecord (alt vel : Option JVal) (r : AggRecord) :
    AggRecord × Option String :=
  let r1 : AggRecord :=
    { r with count := r.count + 1, samples := r.samples + 1 }
  match addIfTruthy r1.total_altitude alt with
  | .error e => (r1, some e)
  | .ok ta =>
      let r2 : AggRecord := { r1 with total_altitude := ta }
      match addIfTruthy r2.total_velocity vel with
      | .error e => (r2, some e)
      | .ok tv => ({ r2 with total_velocity := tv }, none)

/-- Apply one dimension update to a dimension dict at a bucket key. -/
def update_dim (m : DimMap) (key : String) (alt vel : Option JVal) :
    DimMap × Option String :=
  let r0 := (m.lookup key).getD AggRecord.init
  let res := updateAggRecord alt vel r0
  (setEntry m key res.1, res.2)

/-- Embedding of `sum(a['count'] for a in stats['by_airline'].values())`
(fleet-stats line 320). -/
def sum_airline_counts (m : DimMap) : Nat :=
  (m.map (fun p => p.2.count)).sum

/-- The fleet-stats handler's acknowledgment: `{"status": "success"}` or
`{"status": "error", "message": ...}`. -/
inductive FSResp
  | success
  | error (msg : String)
deriving DecidableEq

/-- Embedding of the body of the fleet-stats `flight_update_handler`
(lines 243-328) after payload extraction: classify, then update the four
dimension dicts in sequence inside the single `try` block, then recompute
`total_active`.  An exception anywhere stops the remaining statements
(keeping the mutations already made) and is answered by the `except`
branch with an error acknowledgment.  The periodic `save_stats_to_state`
call performs external I/O only and does not change the modelled state. -/
def fs_process_flight (pyhash : String → Nat)
    (geo_nearest : ℚ → ℚ → Option String) (s : FSStats) (f : Flight) :
    FSStats × FSResp :=
  let airline := get_airline_from_callsign (f.callsign.getD "")
  let destination := infer_destination_from_flight geo_nearest f
  let origin := infer_origin_from_flight pyhash f
  match infer_aircraft_type_from_flight pyhash f with
  | .error e => (s, .error e)
  | .ok aircraft_type =>
      let u1 := update_dim s.by_airline airline f.baro_altitude f.velocity
      let s1 := { s with by_airline := u1.1 }
      match u1.2 with
      | some e => (s1, .error e)
      | none =>
          let u2 := update_dim s1.by_destination destination f.baro_altitude f.velocity
          let s2 := { s1 with by_destination := u2.1 }
          match u2.2 with
          | some e => (s2, .error e)
          | none =>
              let u3 := update_dim s2.by_origin origin f.baro_altitude f.velocity
              let s3 := { s2 with by_origin := u3.1 }
              match u3.2 with
              | some e => (s3, .error e)
              | none =>
                  let u4 := update_dim s3.by_aircraft_type aircraft_type
                    f.baro_altitude f.velocity
                  let s4 := { s3 with by_aircraft_type := u4.1 }
                  match u4.2 with
                  | some e => (s4, .error e)
                  | none =>
                      ({ s4 with
                         total_active := sum_airline_counts s4.by_airline },
                       .success)

/-- Process a sequence of already-extracted flight payloads. -/
def fs_process_all (pyhash : String → Nat)
    (geo_nearest : ℚ → ℚ → Option String) (s : FSStats)
    (evs : List Flight) : FSStats :=
  evs.foldl (fun st f => (fs_process_flight pyhash geo_nearest st f).1) s

/-- An inbound envelope body: a body carrying a `data` field holding a JSON
string, a body carrying a `data` field holding an already-decoded object,
or a body with no `data` field treated as the flight object itself.  (The
`data_base64` branch, present only in fleet-stats, is exercised by no
claim and is not modelled.) -/
inductive Envelope
  | withDataStr (s : String)
  | withDataObj (f : Flight)
  | direct (f : Flight)

/-- Embedding of the fleet-stats payload extraction (lines 228-241):
`json.loads` on a string `data` field is unguarded, so a parse failure
(modelled by `json_loads` returning `none`) raises `JSONDecodeError`
straight into the outer `except`. -/
def fs_extract_flight (json_loads : String → Option Flight) :
    Envelope → Except String Flight
  | .withDataStr s =>
      match json_loads s with
      | some f => .ok f
      | none => .error "JSONDecodeError"
  | .withDataObj f => .ok f
  | .direct f => .ok f

/-- The full fleet-stats `flight_update_handler` (lines 219-332): extract
the payload, then run the aggregation body; any exception is answered
with an error acknowledgment. -/
def fs_flight_update_handler (json_loads : String → Option Flight)
    (pyhash : String → Nat) (geo_nearest : ℚ → ℚ → Option String)
    (s : FSStats) (env : Envelope) : FSStats × FSResp :=
  match fs_extract_flight json_loads env with
  | .error e => (s, .error e)
  | .ok f => fs_process_flight pyhash geo_nearest s f

/-- The `total_active_flights` value reported by the summary endpoint
(fleet-stats line 349): the stored `stats['total_active']` field. -/
def summary_total_active_flights (s : FSStats) : Nat := s.total_active

/-! ### Emergency-alert service (`services/emergency-alert/app.py`) -/

/-- The `EMERGENCY_SQUAWK_CODES` table (emergency-alert lines 26-30). -/
def EMERGENCY_SQUAWK_CODES : List (String × String) :=
  [("7700", "General Emergency"),
   ("7500", "Aircraft Hijacking"),
   ("7600", "Radio Communication Failure")]

/-- Embedding of `check_emergency_squawk` (lines 48-58), applied to the
payload's `squawk` field (its only dict access): falsy squawk means no
emergency, else the stripped squawk string is looked up in the code
table and returned when found. -/
def check_emergency_squawk (squawk : Option String) : Option String :=
  match squawk with
  | none => none
  | some s =>
      if s = "" then none
      else
        let squawk_str := pyStrip s
        if (EMERGENCY_SQUAWK_CODES.lookup squawk_str).isSome then
          some squawk_str
        else none

/-- Embedding of `get_alert_id` (lines 42-46).  The wall-clock reading
`datetime.utcnow().isoformat()` is the parameter `now`. -/
def get_alert_id (f : Flight) (now : String) : String :=
  (f.icao24.getD "unknown") ++ "-" ++ now

/-- The snapshot of the triggering flight stored inside an alert record
(lines 107-115), with the handler's `'unknown'` defaults applied. -/
structure FlightSnap where
  icao24 : String
  callsign : String
  latitude : Option ℚ
  longitude : Option ℚ
  baro_altitude : Option JVal
  velocity : Option JVal
  origin_country : String
deriving DecidableEq

/-- Build the flight snapshot of an alert record from the payload. -/
def snapOf (f : Flight) : FlightSnap :=
  ⟨f.icao24.getD "unknown", f.callsign.getD "unknown", f.latitude,
   f.longitude, f.baro_altitude, f.velocity, f.origin_country.getD "unknown"⟩

/-- An alert record (the `alert_record` dict of lines 102-116). -/
structure AlertRecord where
  alert_id : String
  timestamp : String
  squawk_code : String
  description : String
  flight : FlightSnap
deriving DecidableEq

/-- The `alert_record` literal of lines 102-116.  The handler's second
`utcnow()` call (for the record timestamp) is modelled as the same clock
reading `now` used for the alert ID; no claim depends on the two reads
differing. -/
def mk_alert_record (now : String) (f : Flight) (code : String) :
    AlertRecord :=
  { alert_id := get_alert_id f now
    timestamp := now ++ "Z"
    squawk_code := code
    description := (EMERGENCY_SQUAWK_CODES.lookup code).getD ""
    flight := snapOf f }

/-- The emergency-alert service state: the `active_alerts` dict
(insertion-ordered) and the `alert_history` deque (`maxlen=100`, oldest
first). -/
structure EAState where
  active_alerts : List (String × AlertRecord)
  alert_history : List AlertRecord
deriving DecidableEq

/-- The initial emergency-alert state: both containers empty. -/
def eaInit : EAState := ⟨[], []⟩

/-- Append to a `deque(maxlen=100)`: add on the right, dropping from the
left whatever exceeds the capacity. -/
def deque_append (h : List AlertRecord) (r : AlertRecord) :
    List AlertRecord :=
  let h2 := h ++ [r]
  h2.drop (h2.length - 100)

/-- The payload the emergency-alert extraction can produce: a decoded
object, or the raw string passed through when the `data` string fails to
parse as JSON (lines 79-83). -/
inductive EAPayload
  | obj (f : Flight)
  | rawStr (s : String)
deriving DecidableEq

/-- Embedding of the emergency-alert payload extraction (lines 75-88):
a string `data` field is parsed as JSON inside a `try`, and on
`JSONDecodeError` the raw string itself becomes the payload; an object
`data` field and a body without `data` are used directly. -/
def ea_extract_flight (json_loads : String → Option Flight) :
    Envelope → EAPayload
  | .withDataStr s =>
      match json_loads s with
      | some f => .obj f
      | none => .rawStr s
  | .withDataObj f => .obj f
  | .direct f => .obj f

/-- The emergency-alert handler's acknowledgment: `{"status": "success"}`,
`{"status": "alert_created", ...}`, or `{"status": "error", ...}`. -/
inductive EAResp
  | success
  | alert_created (alert_id : String) (squawk_code : String)
  | error (msg : String)
deriving DecidableEq

/-- Embedding of the emergency-alert `flight_update_handler` (lines
65-131): extract the payload; a falsy payload (empty string or empty
object) is answered with the `"No flight data found"` error; a non-empty
raw-string payload reaches `check_emergency_squawk`, whose `.get` call on
a `str` raises an `AttributeError` answered by the outer `except`; an
object payload is checked for an emergency squawk and, when one is found,
a new alert record is stored in the active dict (overwriting any entry
under the same ID) and appended to the bounded history. -/
def ea_flight_update_handler (json_loads : String → Option Flight)
    (now : String) (st : EAState) (env : Envelope) : EAState × EAResp :=
  match ea_extract_flight json_loads env with
  | .rawStr s =>
      if s = "" then (st, .error "No flight data found")
      else (st, .error "AttributeError")
  | .obj f =>
      if f = emptyFlight then (st, .error "No flight data found")
      else
        match check_emergency_squawk f.squawk with
        | none => (st, .success)
        | some code =>
            let r := mk_alert_record now f code
            ({ active_alerts := setEntry st.active_alerts r.alert_id r
               alert_history := deque_append st.alert_history r },
             .alert_created r.alert_id code)

/-- Process a sequence of (clock reading, envelope) events through the
emergency-alert handler. -/
def ea_process_all (json_loads : String → Option Flight) (st : EAState)
    (evs : List (String × Envelope)) : EAState :=
  evs.foldl (fun s e => (ea_flight_update_handler json_loads e.1 s e.2).1) st

/-- The `clear_alert` endpoint's acknowledgment: cleared, or the
`"Alert not found"` negative result (returned normally, not raised). -/
inductive ClearResp
  | cleared (alert_id : String)
  | notFound
deriving DecidableEq

/-- Embedding of the `clear_alert` endpoint (lines 427-433): delete the
entry when the ID is present, else answer with the negative result. -/
def clear_alert (st : EAState) (alert_id : String) : EAState × ClearResp :=
  if (st.active_alerts.lookup alert_id).isSome then
    ({ st with
       active_alerts := st.active_alerts.eraseP (fun p => p.1 == alert_id) },
     .cleared alert_id)
  else (st, .notFound)

/-- Embedding of the `clear_all_alerts` endpoint (lines 435-440): empty
the active dict and report how many entries were removed. -/
def clear_all_alerts (st : EAState) : EAState × Nat :=
  ({ st with active_alerts := [] }, st.active_alerts.length)

/-! ### Claim-support definitions -/

/-- A metric field of the claims' event universe: a number or absent
(the data model declares `baro_altitude` / `velocity` as optional
floats). -/
def numOrNull : Option JVal → Bool
  | some (.str _) => false
  | _ => true

/-- A flight update of the claims' event universe: both metric fields are
numbers or absent. -/
def wellFormedFlight (f : Flight) : Bool :=
  numOrNull f.baro_altitude && numOrNull f.velocity

/-- The airline classifier as the specification words it: the first two
characters of the trimmed callsign looked up in the fixed table,
`"Unknown"` when too short, `"Other"` when unlisted. -/
def airlineOf_spec_words (callsign : String) : String :=
  let t := pyStrip callsign
  if pyLen t < 2 then "Unknown"
  else ((airline_codes.lookup (pyTake t 2)).getD "Other")

/-- The airline classifier as the amended claim words it: the trimmed
first-two-character slice of the callsign looked up in the fixed table. -/
def airlineOf_amended (callsign : String) : String :=
  if pyLen callsign < 2 then "Unknown"
  else ((airline_codes.lookup (pyStrip (pyTake callsign 2))).getD "Other")

/-- A concrete stand-in for Python's seeded string hash. -/
def hash_const0 : String → Nat := fun _ => 0

/-- A concrete stand-in for the nearest-airport geometry: no airport in
range. -/
def geo_none : ℚ → ℚ → Option String := fun _ _ => none

/-- A concrete `json.loads` stand-in on which every string fails to
parse. -/
def json_loads_fail : String → Option Flight := fun _ => none

/-- A concrete emergency flight event. -/
def flightA : Flight :=
  { icao24 := some "abc123", callsign := some "DL100", squawk := some "7700" }

/-- A second emergency flight of the same aircraft with different content
(for the colliding-alert-ID scenario). -/
def flightB : Flight :=
  { icao24 := some "abc123", callsign := some "UA999", squawk := some "7500" }

/-- A flight event that supplies neither altitude nor velocity. -/
def flight_null_metrics : Flight := { callsign := some "DL100" }

/-- A flight event whose altitude is a truthy non-number: adding it to a
running total raises a `TypeError`. -/
def flight_bad_altitude : Flight :=
  { callsign := some "DL100", baro_altitude := some (JVal.str "high"),
    velocity := some (JVal.num 100) }

/-- A concrete alert record. -/
def alertA : AlertRecord := mk_alert_record "T0" flightA "7700"

/-- An emergency-alert state whose history already holds 100 entries. -/
def ea_full_history_state : EAState := ⟨[], List.replicate 100 alertA⟩

/-- A concrete well-formed flight event with both metrics. -/
def flight_wf1 : Flight :=
  { callsign := some "DL100", baro_altitude := some (JVal.num 10000),
    velocity := some (JVal.num 250) }

/-- A concrete well-formed flight event with only an altitude. -/
def flight_wf2 : Flight :=
  { callsign := some "UA200", baro_altitude := some (JVal.num 9000) }

/-! ### Helper lemmas -/

lemma lookup_setEntry_self {α : Type} (m : List (String × α)) (k : String)
    (v : α) : (setEntry m k v).lookup k = some v := by
  induction m with
  | nil => simp [setEntry, List.lookup]
  | cons p t ih =>
      obtain ⟨k0, v0⟩ := p
      by_cases h : k0 = k
      · simp [setEntry, h, List.lookup]
      · simp only [setEntry, h, if_false, List.lookup]
        have hne : (k == k0) = false := by
          simp [beq_iff_eq]
          exact fun e => h e.symm
        simp [hne, ih]

lemma setEntry_length_of_present {α : Type} (m : List (String × α))
    (k : String) (v : α) (h : (m.lookup k).isSome = true) :
    (setEntry m k v).length = m.length := by
  induction m with
  | nil => simp [List.lookup] at h
  | cons p t ih =>
      obtain ⟨k0, v0⟩ := p
      by_cases hk : k0 = k
      · simp [setEntry, hk]
      · have hne : (k == k0) = false := by
          simp [beq_iff_eq]
          exact fun e => hk e.symm
        have ht : (t.lookup k).isSome = true := by
          simpa [List.lookup, hne] using h
        simp [setEntry, hk, ih ht]

lemma deque_append_length_le (h : List AlertRecord) (r : AlertRecord) :
    (deque_append h r).length ≤ 100 := by
  simp only [deque_append, List.length_drop, List.length_append,
    List.length_cons, List.length_nil]
  omega

lemma deque_append_full (h : List AlertRecord) (r : AlertRecord)
    (hl : h.length = 100) : deque_append h r = h.tail ++ [r] := by
  cases h with
  | nil => simp at hl
  | cons a t =>
      simp only [List.length_cons] at hl
      simp [deque_append, List.length_append, hl]

lemma ea_handler_history_shape (jl : String → Option Flight) (now : String)
    (st : EAState) (env : Envelope) :
    (ea_flight_update_handler jl now st env).1.alert_history = st.alert_history
    ∨ ∃ r, (ea_flight_update_handler jl now st env).1.alert_history
        = deque_append st.alert_history r := by
  unfold ea_flight_update_handler
  cases hx : ea_extract_flight jl env with
  | rawStr s => by_cases hs : s = "" <;> simp [hs]
  | obj f =>
      by_cases hf : f = emptyFlight
      · simp [hf]
      · simp only [hf, if_false]
        cases hc : check_emergency_squawk f.squawk with
        | none => simp
        | some code => exact Or.inr ⟨_, rfl⟩

lemma ne_emptyFlight_of_check (f : Flight) (c : String)
    (h : check_emergency_squawk f.squawk = some c) : f ≠ emptyFlight := by
  intro he
  rw [he] at h
  simp [check_emergency_squawk, emptyFlight] at h

lemma ea_handler_emergency (jl : String → Option Flight) (now : String)
    (st : EAState) (f : Flight) (c : String)
    (h : check_emergency_squawk f.squawk = some c) :
    ea_flight_update_handler jl now st (.withDataObj f)
      = ({ active_alerts := setEntry st.active_alerts (get_alert_id f now)
             (mk_alert_record now f c),
           alert_history := deque_append st.alert_history
             (mk_alert_record now f c) },
         .alert_created (get_alert_id f now) c) := by
  have hne := ne_emptyFlight_of_check f c h
  simp [ea_flight_update_handler, ea_extract_flight, hne, h]
  exact ⟨rfl, rfl⟩

/-- Claim C4: the alert history never exceeds 100 entries, and an alert
created when the history already holds 100 evicts exactly the oldest
entry (the head of the insertion-ordered deque). -/
theorem ea_history_bounded_and_oldest_evicted :
    ∀ (json_loads : String → Option Flight) (evs : List (String × Envelope)),
      (ea_process_all json_loads eaInit evs).alert_history.length ≤ 100
    ∧ ∀ (st : EAState) (now : String) (env : Envelope),
        st.alert_history.length = 100 →
        ((ea_flight_update_handler json_loads now st env).1.alert_history
            = st.alert_history
         ∨ ∃ r, (ea_flight_update_handler json_loads now st env).1.alert_history
             = st.alert_history.tail ++ [r]) := by
  intro jl evs
  constructor
  · have main : ∀ (l : List (String × Envelope)) (st : EAState),
        st.alert_history.length ≤ 100 →
        (ea_process_all jl st l).alert_history.length ≤ 100 := by
      intro l
      induction l with
      | nil => intro st h; simpa [ea_process_all] using h
      | cons e t ih =>
          intro st h
          have hstep : ((ea_flight_update_handler jl e.1 st e.2).1).alert_history.length
              ≤ 100 := by
            rcases ea_handler_history_shape jl e.1 st e.2 with heq | ⟨r, heq⟩
            · rw [heq]; exact h
            · rw [heq]; exact deque_append_length_le _ _
          simpa [ea_process_all] using ih _ hstep
    exact main evs eaInit (by simp [eaInit])
  · intro st now env hlen
    rcases ea_handler_history_shape jl now st env with heq | ⟨r, heq⟩
    · exact Or.inl heq
    · exact Or.inr ⟨r, by rw [heq, deque_append_full _ _ hlen]⟩

/-- Closed witness for C4 at a concrete event list and a concrete
100-entry history. -/
theorem ea_history_bounded_and_oldest_evicted_witness :
    (ea_process_all json_loads_fail eaInit
        [("T0", Envelope.withDataObj flightA)]).alert_history.length ≤ 100
    ∧ ea_full_history_state.alert_history.length = 100
    ∧ ((ea_flight_update_handler json_loads_fail "T1" ea_full_history_state
          (Envelope.withDataObj flightA)).1.alert_history
            = ea_full_history_state.alert_history
       ∨ ∃ r, (ea_flight_update_handler json_loads_fail "T1" ea_full_history_state
          (Envelope.withDataObj flightA)).1.alert_history
            = ea_full_history_state.alert_history.tail ++ [r]) :=
  ⟨(ea_history_bounded_and_oldest_evicted json_loads_fail
      [("T0", Envelope.withDataObj flightA)]).1,
   by decide,
   (ea_history_bounded_and_oldest_evicted json_loads_fail
      [("T0", Envelope.withDataObj flightA)]).2 ea_full_history_state "T1"
      (Envelope.withDataObj flightA) (by decide)⟩

set_option maxRecDepth 20000 in
/-- Claim C5: an emergency event always creates a new alert record whose
ID is the icao24 joined with the creation timestamp, with no
deduplication against an existing active alert of the same aircraft; both
records of a repeated emergency reach the history, and under a colliding
ID the later record overwrites the earlier one in the active map (the
active map does not grow). -/
theorem ea_no_dedup_and_last_write_wins :
    ∀ (jl : String → Option Flight) (now : String) (st : EAState)
      (f g : Flight) (cf cg : String),
      check_emergency_squawk f.squawk = some cf →
      check_emergency_squawk g.squawk = some cg →
      f.icao24 = g.icao24 →
      ((ea_flight_update_handler jl now st (.withDataObj f)).2
          = .alert_created (get_alert_id f now) cf)
      ∧ ((ea_flight_update_handler jl now
            ((ea_flight_update_handler jl now st (.withDataObj f)).1)
            (.withDataObj g)).2 = .alert_created (get_alert_id f now) cg)
      ∧ ((ea_flight_update_handler jl now
            ((ea_flight_update_handler jl now st (.withDataObj f)).1)
            (.withDataObj g)).1.alert_history
          = deque_append
              (deque_append st.alert_history (mk_alert_record now f cf))
              (mk_alert_record now g cg))
      ∧ ((ea_flight_update_handler jl now
            ((ea_flight_update_handler jl now st (.withDataObj f)).1)
            (.withDataObj g)).1.active_alerts.lookup (get_alert_id f now)
          = some (mk_alert_record now g cg))
      ∧ ((ea_flight_update_handler jl now
            ((ea_flight_update_handler jl now st (.withDataObj f)).1)
            (.withDataObj g)).1.active_alerts.length
          = ((ea_flight_update_handler jl now st (.withDataObj f)).1).active_alerts.length) := by
  intro jl now st f g cf cg hf hg hicao
  have hid : get_alert_id g now = get_alert_id f now := by
    simp [get_alert_id, hicao]
  rw [ea_handler_emergency jl now st f cf hf]
  rw [ea_handler_emergency jl now _ g cg hg]
  refine ⟨rfl, ?_, ?_, ?_, ?_⟩
  · rw [hid]
  · rfl
  · simp only [hid]
    exact lookup_setEntry_self _ _ _
  · simp only [hid]
    exact setEntry_length_of_present _ _ _
      (by rw [lookup_setEntry_self]; rfl)

/-- Closed witness for C5: two emergency events of the same aircraft with
different callsigns and codes, processed at the same clock reading. -/
theorem ea_no_dedup_and_last_write_wins_witness :
    check_emergency_squawk flightA.squawk = some "7700"
    ∧ check_emergency_squawk flightB.squawk = some "7500"
    ∧ flightA.icao24 = flightB.icao24
    ∧ (((ea_flight_update_handler json_loads_fail "T0" eaInit
          (.withDataObj flightA)).2
          = .alert_created (get_alert_id flightA "T0") "7700")
      ∧ ((ea_flight_update_handler json_loads_fail "T0"
            ((ea_flight_update_handler json_loads_fail "T0" eaInit
              (.withDataObj flightA)).1)
            (.withDataObj flightB)).2
          = .alert_created (get_alert_id flightA "T0") "7500")
      ∧ ((ea_flight_update_handler json_loads_fail "T0"
            ((ea_flight_update_handler json_loads_fail "T0" eaInit
              (.withDataObj flightA)).1)
            (.withDataObj flightB)).1.alert_history
          = deque_append
              (deque_append eaInit.alert_history (mk_alert_record "T0" flightA "7700"))
              (mk_alert_record "T0" flightB "7500"))
      ∧ ((ea_flight_update_handler json_loads_fail "T0"
            ((ea_flight_update_handler json_loads_fail "T0" eaInit
              (.withDataObj flightA)).1)
            (.withDataObj flightB)).1.active_alerts.lookup
              (get_alert_id flightA "T0")
          = some (mk_alert_record "T0" flightB "7500"))
      ∧ ((ea_flight_update_handler json_loads_fail "T0"
            ((ea_flight_update_handler json_loads_fail "T0" eaInit
              (.withDataObj flightA)).1)
            (.withDataObj flightB)).1.active_alerts.length
          = ((ea_flight_update_handler json_loads_fail "T0" eaInit
              (.withDataObj flightA)).1).active_alerts.length)) :=
  ⟨by decide, by decide, by decide,
   ea_no_dedup_and_last_write_wins json_loads_fail "T0" eaInit flightA flightB
     "7700" "7500" (by decide) (by decide) (by decide)⟩

lemma squawk_code_lookup (t : String) :
    (EMERGENCY_SQUAWK_CODES.lookup t).isSome = true ↔
      (t = "7700" ∨ t = "7500" ∨ t = "7600") := by
  by_cases h1 : t = "7700"
  · simp [EMERGENCY_SQUAWK_CODES, List.lookup, h1]
  · by_cases h2 : t = "7500"
    · simp [EMERGENCY_SQUAWK_CODES, List.lookup, h2]
    · by_cases h3 : t = "7600"
      · simp [EMERGENCY_SQUAWK_CODES, List.lookup, h3]
      · have e1 : (t == "7700") = false := by simp [beq_iff_eq, h1]
        have e2 : (t == "7500") = false := by simp [beq_iff_eq, h2]
        have e3 : (t == "7600") = false := by simp [beq_iff_eq, h3]
        simp [EMERGENCY_SQUAWK_CODES, List.lookup, e1, e2, e3, h1, h2, h3]

lemma check_emergency_squawk_isSome (sq : Option String) :
    (check_emergency_squawk sq).isSome = true ↔
      ∃ s, sq = some s ∧
        (pyStrip s = "7700" ∨ pyStrip s = "7500" ∨ pyStrip s = "7600") := by
  cases sq with
  | none => simp [check_emergency_squawk]
  | some s =>
      constructor
      · intro h
        refine ⟨s, rfl, ?_⟩
        rw [← squawk_code_lookup (pyStrip s)]
        by_cases hs : s = ""
        · subst hs
          simp [check_emergency_squawk] at h
        · simp only [check_emergency_squawk, hs, if_false] at h
          by_cases hl : (EMERGENCY_SQUAWK_CODES.lookup (pyStrip s)).isSome = true
          · exact hl
          · simp [hl] at h
      · rintro ⟨s1, hs1, hcodes⟩
        have he : s = s1 := by injection hs1
        subst he
        rw [← squawk_code_lookup (pyStrip s)] at hcodes
        have hs : s ≠ "" := by
          intro he2
          subst he2
          revert hcodes
          decide
        simp [check_emergency_squawk, hs, hcodes]

/-- Claim C6: an alert is created exactly when the trimmed squawk is one
of the three emergency codes; squawk `"7700"` yields a record described
as `"General Emergency"`, while any other or absent squawk leaves the
state unchanged and acknowledges with success. -/
theorem ea_alert_iff_emergency_code :
    ∀ (jl : String → Option Flight) (now : String) (st : EAState) (f : Flight),
      ((check_emergency_squawk f.squawk).isSome = true ↔
        ∃ s, f.squawk = some s ∧
          (pyStrip s = "7700" ∨ pyStrip s = "7500" ∨ pyStrip s = "7600"))
    ∧ (f ≠ emptyFlight → check_emergency_squawk f.squawk = none →
        ea_flight_update_handler jl now st (.withDataObj f) = (st, .success))
    ∧ (check_emergency_squawk f.squawk = some "7700" →
        (ea_flight_update_handler jl now st (.withDataObj f)).2
          = .alert_created (get_alert_id f now) "7700"
        ∧ (ea_flight_update_handler jl now st (.withDataObj f)).1.active_alerts.lookup
            (get_alert_id f now) = some (mk_alert_record now f "7700")
        ∧ (mk_alert_record now f "7700").description = "General Emergency") := by
  intro jl now st f
  refine ⟨check_emergency_squawk_isSome f.squawk, ?_, ?_⟩
  · intro hne hnone
    simp [ea_flight_update_handler, ea_extract_flight, hne, hnone]
  · intro h7700
    rw [ea_handler_emergency jl now st f "7700" h7700]
    refine ⟨rfl, ?_, rfl⟩
    exact lookup_setEntry_self _ _ _

/-- Closed witness for C6 at a concrete emergency flight and a concrete
non-emergency flight. -/
theorem ea_alert_iff_emergency_code_witness :
    ((check_emergency_squawk flightA.squawk).isSome = true ↔
      ∃ s, flightA.squawk = some s ∧
        (pyStrip s = "7700" ∨ pyStrip s = "7500" ∨ pyStrip s = "7600"))
    ∧ ({ callsign := some "DL100", squawk := some "1200" } : Flight) ≠ emptyFlight
    ∧ check_emergency_squawk ({ callsign := some "DL100", squawk := some "1200" } : Flight).squawk = none
    ∧ ea_flight_update_handler json_loads_fail "T0" eaInit
        (.withDataObj { callsign := some "DL100", squawk := some "1200" })
        = (eaInit, .success)
    ∧ check_emergency_squawk flightA.squawk = some "7700"
    ∧ ((ea_flight_update_handler json_loads_fail "T0" eaInit (.withDataObj flightA)).2
          = .alert_created (get_alert_id flightA "T0") "7700"
        ∧ (ea_flight_update_handler json_loads_fail "T0" eaInit
            (.withDataObj flightA)).1.active_alerts.lookup
            (get_alert_id flightA "T0") = some (mk_alert_record "T0" flightA "7700")
        ∧ (mk_alert_record "T0" flightA "7700").description = "General Emergency") :=
  ⟨(ea_alert_iff_emergency_code json_loads_fail "T0" eaInit flightA).1,
   by decide, by decide,
   (ea_alert_iff_emergency_code json_loads_fail "T0" eaInit
      { callsign := some "DL100", squawk := some "1200" }).2.1
      (by decide) (by decide),
   by decide,
   (ea_alert_iff_emergency_code json_loads_fail "T0" eaInit flightA).2.2
      (by decide)⟩

/-- Claim C9: clearing an absent alert ID answers with the negative
result and leaves the whole state unchanged; clearing by ID never touches
the alert history; clear-all empties the active map, reports the number
removed, and never touches the alert history. -/
theorem ea_clear_only_touches_active :
    ∀ (st : EAState) (aid : String),
      (st.active_alerts.lookup aid = none →
        clear_alert st aid = (st, ClearResp.notFound))
    ∧ (clear_alert st aid).1.alert_history = st.alert_history
    ∧ (clear_all_alerts st).1.alert_history = st.alert_history
    ∧ (clear_all_alerts st).1.active_alerts = []
    ∧ (clear_all_alerts st).2 = st.active_alerts.length := by
  intro st aid
  refine ⟨?_, ?_, rfl, rfl, rfl⟩
  · intro h
    simp [clear_alert, h]
  · unfold clear_alert
    split
    · rfl
    · rfl

/-- Closed witness for C9 at a concrete one-alert state, exercising both
an absent ID and the present ID. -/
theorem ea_clear_only_touches_active_witness :
    ((⟨[("abc123-T0", alertA)], [alertA]⟩ : EAState).active_alerts.lookup "nope" = none
      ∧ clear_alert ⟨[("abc123-T0", alertA)], [alertA]⟩ "nope"
          = (⟨[("abc123-T0", alertA)], [alertA]⟩, ClearResp.notFound))
    ∧ (clear_alert ⟨[("abc123-T0", alertA)], [alertA]⟩ "abc123-T0").1.alert_history
        = [alertA]
    ∧ (clear_all_alerts ⟨[("abc123-T0", alertA)], [alertA]⟩).1.alert_history = [alertA]
    ∧ (clear_all_alerts ⟨[("abc123-T0", alertA)], [alertA]⟩).1.active_alerts = []
    ∧ (clear_all_alerts ⟨[("abc123-T0", alertA)], [alertA]⟩).2 = 1 :=
  ⟨⟨by decide,
    (ea_clear_only_touches_active ⟨[("abc123-T0", alertA)], [alertA]⟩ "nope").1
      (by decide)⟩,
   (ea_clear_only_touches_active ⟨[("abc123-T0", alertA)], [alertA]⟩ "abc123-T0").2.1,
   (ea_clear_only_touches_active ⟨[("abc123-T0", alertA)], [alertA]⟩ "abc123-T0").2.2.1,
   (ea_clear_only_touches_active ⟨[("abc123-T0", alertA)], [alertA]⟩ "abc123-T0").2.2.2.1,
   (ea_clear_only_touches_active ⟨[("abc123-T0", alertA)], [alertA]⟩ "abc123-T0").2.2.2.2⟩

/-- Claim C7 counterexample: on the callsign `" DL10"` the code slices
first and trims second, returning `"Other"`, while the lookup of the
first two characters of the trimmed callsign (`"DL"`) is `"Delta"` — so
the classifier is not the function the claim describes. -/
theorem get_airline_trim_order_counterexample :
    get_airline_from_callsign " DL10" = "Other"
    ∧ airlineOf_spec_words " DL10" = "Delta"
    ∧ get_airline_from_callsign " DL10" ≠ airlineOf_spec_words " DL10" := by
  decide

/-- Claim C7 as amended: the classifier returns the fixed-table lookup of
the trimmed first-two-character slice of the callsign (slice first, trim
second); an empty or shorter-than-two callsign maps to `"Unknown"` and a
slice not in the table maps to `"Other"`. -/
theorem get_airline_matches_amended_spec :
    ∀ callsign : String,
      get_airline_from_callsign callsign = airlineOf_amended callsign := by
  intro cs
  by_cases h : cs = ""
  · subst h
    decide
  · simp [get_airline_from_callsign, airlineOf_amended, h]

/-- Claim C1, evaluated at the failing input: a single event whose
altitude and velocity are both null still increments `samples`, leaving
`samples = 1` where the claim requires the number of non-null-metric
events, `0`.  (The code increments `samples` unconditionally, so it
always equals `count`.) -/
theorem fs_samples_counts_null_metric_events :
    (fs_process_all hash_const0 geo_none fsInit
        [flight_null_metrics]).by_airline.lookup "Delta"
      = some { count := 1, total_altitude := 0, total_velocity := 0, samples := 1 }
    ∧ (1 : Nat) ≠ 0 := by
  decide

/-- Claim C3 counterexample: an event whose truthy non-numeric altitude
makes the airline-dimension update raise a `TypeError`.  The airline
record is mutated, the handler still acknowledges (with an error status),
but the destination, origin and aircraft-type dimensions are never
updated — the four per-dimension updates are not independent. -/
theorem fs_dimension_updates_not_independent :
    (fs_process_flight hash_const0 geo_none fsInit flight_bad_altitude).2
      = FSResp.error "TypeError"
    ∧ (fs_process_flight hash_const0 geo_none fsInit
        flight_bad_altitude).1.by_airline.lookup "Delta"
      = some { count := 1, total_altitude := 0, total_velocity := 0, samples := 1 }
    ∧ (fs_process_flight hash_const0 geo_none fsInit
        flight_bad_altitude).1.by_destination = []
    ∧ (fs_process_flight hash_const0 geo_none fsInit
        flight_bad_altitude).1.by_origin = []
    ∧ (fs_process_flight hash_const0 geo_none fsInit
        flight_bad_altitude).1.by_aircraft_type = [] := by
  decide

/-- Claim C8 counterexample: in the fleet-stats handler a `data` string
that fails to parse as JSON is not passed through as a degenerate
payload — the unguarded `json.loads` raises and the event is acknowledged
with an error status even though an extractable payload (the non-empty
raw string) exists. -/
theorem fs_unparseable_data_string_fails :
    fs_flight_update_handler json_loads_fail hash_const0 geo_none fsInit
        (Envelope.withDataStr "oops")
      = (fsInit, FSResp.error "JSONDecodeError")
    ∧ "oops" ≠ "" := by
  decide

lemma updateAggRecord_ok (alt vel : Option JVal) (r : AggRecord)
    (ha : numOrNull alt = true) (hv : numOrNull vel = true) :
    (updateAggRecord alt vel r).2 = none := by
  unfold updateAggRecord
  cases alt with
  | some j =>
      cases j with
      | str s => simp [numOrNull] at ha
      | num q =>
          cases vel with
          | some j2 =>
              cases j2 with
              | str s2 => simp [numOrNull] at hv
              | num q2 =>
                  by_cases h1 : q = 0 <;> by_cases h2 : q2 = 0 <;>
                    simp [addIfTruthy, h1, h2]
          | none => by_cases h1 : q = 0 <;> simp [addIfTruthy, h1]
  | none =>
      cases vel with
      | some j2 =>
          cases j2 with
          | str s2 => simp [numOrNull] at hv
          | num q2 => by_cases h2 : q2 = 0 <;> simp [addIfTruthy, h2]
      | none => rfl

lemma update_dim_snd (m : DimMap) (k : String) (alt vel : Option JVal)
    (ha : numOrNull alt = true) (hv : numOrNull vel = true) :
    (update_dim m k alt vel).2 = none := by
  unfold update_dim
  exact updateAggRecord_ok alt vel _ ha hv

lemma pyOr_getD_num (v : Option JVal) (h : numOrNull v = true) :
    ∃ q, pyOr (v.getD (JVal.num 0)) (JVal.num 0) = JVal.num q := by
  cases v with
  | none => exact ⟨0, rfl⟩
  | some j =>
      cases j with
      | str s => simp [numOrNull] at h
      | num q =>
          by_cases hq : q = 0
          · exact ⟨0, by simp [pyOr, truthyJ, hq]⟩
          · exact ⟨q, by simp [pyOr, truthyJ, hq]⟩

lemma infer_aircraft_ok (ph : String → Nat) (f : Flight)
    (ha : numOrNull f.baro_altitude = true)
    (hv : numOrNull f.velocity = true) :
    ∃ t, infer_aircraft_type_from_flight ph f = .ok t := by
  unfold infer_aircraft_type_from_flight
  by_cases hcs : (pyStrip (f.callsign.getD "") != "") = true
  · simp only [hcs, if_true]
    exact ⟨_, rfl⟩
  · simp only [hcs, if_false]
    obtain ⟨qa, hqa⟩ := pyOr_getD_num f.baro_altitude ha
    obtain ⟨qv, hqv⟩ := pyOr_getD_num f.velocity hv
    rw [hqa, hqv]
    by_cases b1 : (10000 : ℚ) < qa <;> by_cases b2 : (200 : ℚ) < qv <;>
      by_cases b3 : (5000 : ℚ) < qa <;> simp [pyGT, b1, b2, b3]

lemma fs_step_total_active (ph : String → Nat)
    (geo : ℚ → ℚ → Option String) (s : FSStats) (f : Flight)
    (hwf : wellFormedFlight f = true) :
    ((fs_process_flight ph geo s f).1).total_active
      = sum_airline_counts ((fs_process_flight ph geo s f).1).by_airline := by
  rw [wellFormedFlight, Bool.and_eq_true] at hwf
  obtain ⟨ha, hv⟩ := hwf
  obtain ⟨t, hair⟩ := infer_aircraft_ok ph f ha hv
  have h2 : ∀ (m : DimMap) (k : String),
      (update_dim m k f.baro_altitude f.velocity).2 = none :=
    fun m k => update_dim_snd m k _ _ ha hv
  unfold fs_process_flight
  rw [hair]
  simp only [h2]

/-- Claim C2: after processing any finite sequence of flight-update
events (optional numeric metrics, as the data model declares), the
reported `total_active` equals the sum of `count` over all buckets of the
airline dimension.  Quantifying over all event lists covers every prefix
of every sequence. -/
theorem fs_total_active_eq_airline_count_sum :
    ∀ (pyhash : String → Nat) (geo_nearest : ℚ → ℚ → Option String)
      (evs : List Flight),
      (∀ f ∈ evs, wellFormedFlight f = true) →
      summary_total_active_flights (fs_process_all pyhash geo_nearest fsInit evs)
        = sum_airline_counts
            (fs_process_all pyhash geo_nearest fsInit evs).by_airline := by
  intro ph geo evs hwf
  have main : ∀ (l : List Flight) (s : FSStats),
      (∀ f ∈ l, wellFormedFlight f = true) →
      s.total_active = sum_airline_counts s.by_airline →
      (fs_process_all ph geo s l).total_active
        = sum_airline_counts (fs_process_all ph geo s l).by_airline := by
    intro l
    induction l with
    | nil => intro s _ h; simpa [fs_process_all] using h
    | cons f t ih =>
        intro s hl _
        have hstep := fs_step_total_active ph geo s f (hl f (by simp))
        have hrest : ∀ g ∈ t, wellFormedFlight g = true :=
          fun g hg => hl g (by simp [hg])
        simpa [fs_process_all] using
          ih (fs_process_flight ph geo s f).1 hrest hstep
  exact main evs fsInit hwf rfl

/-- Closed witness for C2 at a concrete two-event sequence. -/
theorem fs_total_active_eq_airline_count_sum_witness :
    (∀ f ∈ [flight_wf1, flight_wf2], wellFormedFlight f = true)
    ∧ summary_total_active_flights
        (fs_process_all hash_const0 geo_none fsInit [flight_wf1, flight_wf2])
      = sum_airline_counts
          (fs_process_all hash_const0 geo_none fsInit
            [flight_wf1, flight_wf2]).by_airline :=
  ⟨by decide,
   fs_total_active_eq_airline_count_sum hash_const0 geo_none
     [flight_wf1, flight_wf2] (by decide)⟩

/-- Claim C3 as amended: the four per-dimension updates run sequentially
inside the handler's single `try` block, so a failure while updating one
dimension's record prevents the remaining dimensions' records from being
updated (mutations already applied are kept), while the handler still
acknowledges the event, with an error status, instead of propagating the
failure. -/
theorem fs_update_failure_stops_remaining_dims :
    ∀ (pyhash : String → Nat) (geo_nearest : ℚ → ℚ → Option String)
      (s : FSStats) (f : Flight) (v : String),
      f.baro_altitude = some (JVal.str v) → v ≠ "" →
      pyStrip (f.callsign.getD "") ≠ "" →
      (fs_process_flight pyhash geo_nearest s f).2 = FSResp.error "TypeError"
      ∧ (fs_process_flight pyhash geo_nearest s f).1.by_destination
          = s.by_destination
      ∧ (fs_process_flight pyhash geo_nearest s f).1.by_origin = s.by_origin
      ∧ (fs_process_flight pyhash geo_nearest s f).1.by_aircraft_type
          = s.by_aircraft_type
      ∧ (fs_process_flight pyhash geo_nearest s f).1.total_active
          = s.total_active
      ∧ (fs_process_flight pyhash geo_nearest s f).1.by_airline
          = (update_dim s.by_airline
              (get_airline_from_callsign (f.callsign.getD ""))
              f.baro_altitude f.velocity).1 := by
  intro ph geo s f v hba hv hcs
  have hc2 : (pyStrip (f.callsign.getD "") != "") = true := by
    simp [bne_iff_ne, hcs]
  have hair : ∃ t, infer_aircraft_type_from_flight ph f = .ok t := by
    unfold infer_aircraft_type_from_flight
    simp only [hc2, if_true]
    exact ⟨_, rfl⟩
  obtain ⟨t, hair⟩ := hair
  have hu : ∀ (m : DimMap) (k : String),
      (update_dim m k f.baro_altitude f.velocity).2 = some "TypeError" := by
    intro m k
    unfold update_dim updateAggRecord
    rw [hba]
    simp [addIfTruthy, hv]
  unfold fs_process_flight
  rw [hair]
  simp only [hu]
  exact ⟨trivial, trivial, trivial, trivial, trivial, trivial⟩

/-- Closed witness for the amended C3 at the concrete bad-altitude
event. -/
theorem fs_update_failure_stops_remaining_dims_witness :
    flight_bad_altitude.baro_altitude = some (JVal.str "high")
    ∧ "high" ≠ ""
    ∧ pyStrip (flight_bad_altitude.callsign.getD "") ≠ ""
    ∧ ((fs_process_flight hash_const0 geo_none fsInit flight_bad_altitude).2
          = FSResp.error "TypeError"
      ∧ (fs_process_flight hash_const0 geo_none fsInit
          flight_bad_altitude).1.by_destination = fsInit.by_destination
      ∧ (fs_process_flight hash_const0 geo_none fsInit
          flight_bad_altitude).1.by_origin = fsInit.by_origin
      ∧ (fs_process_flight hash_const0 geo_none fsInit
          flight_bad_altitude).1.by_aircraft_type = fsInit.by_aircraft_type
      ∧ (fs_process_flight hash_const0 geo_none fsInit
          flight_bad_altitude).1.total_active = fsInit.total_active
      ∧ (fs_process_flight hash_const0 geo_none fsInit
          flight_bad_altitude).1.by_airline
          = (update_dim fsInit.by_airline
              (get_airline_from_callsign (flight_bad_altitude.callsign.getD ""))
              flight_bad_altitude.baro_altitude
              flight_bad_altitude.velocity).1) :=
  ⟨by decide, by decide, by decide,
   fs_update_failure_stops_remaining_dims hash_const0 geo_none fsInit
     flight_bad_altitude "high" (by decide) (by decide) (by decide)⟩

set_option maxRecDepth 40000 in
/-- Claim C10: a metric field present with value `0` is treated exactly
like an absent one — the handler's state and acknowledgment are
identical, so the zero is not added to any dimension's totals, just as a
null is not. -/
theorem fs_zero_metric_equals_absent_metric :
    ∀ (pyhash : String → Nat) (geo_nearest : ℚ → ℚ → Option String)
      (s : FSStats) (f : Flight),
      fs_process_flight pyhash geo_nearest s
          { f with baro_altitude := some (JVal.num 0) }
        = fs_process_flight pyhash geo_nearest s
          { f with baro_altitude := none }
      ∧ fs_process_flight pyhash geo_nearest s
          { f with velocity := some (JVal.num 0) }
        = fs_process_flight pyhash geo_nearest s
          { f with velocity := none } := by
  intro ph geo s f
  exact ⟨rfl, rfl⟩

/-- Claim C8 as amended: the emergency-alert handler passes an
unparseable `data` string through as the raw string and reports the
no-payload (malformed-event) status exactly when the extracted payload is
empty, treating a body without `data` as a direct object; the fleet-stats
handler has no such fallback and acknowledges an unparseable `data`
string with an error status even though the raw string payload exists. -/
theorem ea_raw_passthrough_fs_parse_error :
    ∀ (json_loads : String → Option Flight) (v now : String) (st : EAState)
      (pyhash : String → Nat) (geo_nearest : ℚ → ℚ → Option String)
      (fst : FSStats),
      json_loads v = none →
      ea_extract_flight json_loads (.withDataStr v) = .rawStr v
      ∧ (∀ env, (ea_flight_update_handler json_loads now st env).2
            = .error "No flight data found"
          ↔ (ea_extract_flight json_loads env = .rawStr ""
             ∨ ea_extract_flight json_loads env = .obj emptyFlight))
      ∧ (∀ f, ea_extract_flight json_loads (.direct f) = .obj f)
      ∧ fs_flight_update_handler json_loads pyhash geo_nearest fst
          (.withDataStr v) = (fst, .error "JSONDecodeError") := by
  intro jl v now st ph geo fst hv
  refine ⟨by simp [ea_extract_flight, hv], ?_, fun f => rfl,
    by simp [fs_flight_update_handler, fs_extract_flight, hv]⟩
  intro env
  unfold ea_flight_update_handler
  cases hx : ea_extract_flight jl env with
  | rawStr s =>
      by_cases hs : s = ""
      · subst hs
        simp
      · simp only [hs, if_false]
        constructor
        · intro h
          injection h with h2
          exact absurd h2 (by decide)
        · rintro (h | h)
          · injection h with h2
            exact absurd h2 hs
          · exact absurd h (by simp)
  | obj f =>
      by_cases hf : f = emptyFlight
      · subst hf
        simp
      · simp only [hf, if_false]
        cases hc : check_emergency_squawk f.squawk with
        | none =>
            simp only []
            constructor
            · intro h
              exact absurd h (by simp)
            · rintro (h | h)
              · exact absurd h (by simp)
              · injection h with h2
                exact absurd h2 hf
        | some code =>
            simp only []
            constructor
            · intro h
              exact absurd h (by simp)
            · rintro (h | h)
              · exact absurd h (by simp)
              · injection h with h2
                exact absurd h2 hf

/-- Closed witness for the amended C8 at a concrete unparseable string. -/
theorem ea_raw_passthrough_fs_parse_error_witness :
    json_loads_fail "oops" = none
    ∧ (ea_extract_flight json_loads_fail (.withDataStr "oops") = .rawStr "oops"
      ∧ (∀ env, (ea_flight_update_handler json_loads_fail "T0" eaInit env).2
            = .error "No flight data found"
          ↔ (ea_extract_flight json_loads_fail env = .rawStr ""
             ∨ ea_extract_flight json_loads_fail env = .obj emptyFlight))
      ∧ (∀ f, ea_extract_flight json_loads_fail (.direct f) = .obj f)
      ∧ fs_flight_update_handler json_loads_fail hash_const0 geo_none fsInit
          (.withDataStr "oops") = (fsInit, .error "JSONDecodeError")) :=
  ⟨rfl,
   ea_raw_passthrough_fs_parse_error json_loads_fail "oops" "T0" eaInit
     hash_const0 geo_none fsInit rfl⟩
